import Mathlib

/-!
A shallow embedding of the AI image style-transformer client: the prompt
composer and response-scanning logic of the Gemini service wrapper
(`generateImageFromImage`, `removeImageBackground`), and the App-level
state handlers (`handleImageUpload`, `handleRemoveBackgroundClick`,
`handleGenerateClick`). Strings are carried over verbatim from the source;
the remote model call is represented by an explicit `Except` outcome
parameter, and the `try`/`catch` blocks become explicit `Except` matching.
-/

namespace StyleTransformer

/-! ### Prompt composer (geminiService, `generateImageFromImage` lines 20-51) -/

/-- Model of JavaScript `String.prototype.trim` as used by the clause
guards: drop leading and trailing whitespace characters. -/
def jsTrim (s : String) : String :=
  ⟨((s.data.dropWhile Char.isWhitespace).reverse.dropWhile Char.isWhitespace).reverse⟩

/-- Clause appended when the character description is non-blank
(source line 23): the description verbatim, wrapped in quotes. -/
def characterClause (characterDescription : String) : String :=
  " The character should also be described as: \"" ++ characterDescription ++ "\"."

/-- Clause appended when the scene description is non-blank
(source line 27): the description verbatim, wrapped in quotes. -/
def sceneClause (sceneDescription : String) : String :=
  " The scene and action should be: \"" ++ sceneDescription ++ "\"."

/-- Influence clause for `influence > 70` (source line 33). -/
def adhereCloselyClause : String :=
  " The overall style, clothing, and background should adhere closely to the descriptions provided."

/-- Influence clause for `30 < influence <= 70` (source line 35). -/
def strongReferenceClause : String :=
  " Use the descriptions as a strong reference, but allow for some artistic stylization in the clothing and background."

/-- Influence clause for `influence <= 30` (source line 37). -/
def looseInspirationClause : String :=
  " Use the descriptions as a loose inspiration for the style, clothing, and background, allowing for significant creative interpretation."

/-- Influence clause selection (source lines 31-38): exclusive lower bounds
`influence > 70`, then `influence > 30`, else the loose clause. -/
def influencePromptOf (influence : Int) : String :=
  if influence > 70 then adhereCloselyClause
  else if influence > 30 then strongReferenceClause
  else looseInspirationClause

/-- Quality clause for `outputQuality === 'high'` (source line 43). -/
def highQualityClause : String :=
  " Generate the final image in high definition (HD) with photorealistic details, aiming for a resolution between 2K and 4K."

/-- Quality clause for any other selector (source line 45). -/
def standardQualityClause : String :=
  " Generate the final image in a standard definition, suitable for web display, around 720p resolution."

/-- Quality clause selection (source lines 41-46). -/
def qualityPromptOf (outputQuality : String) : String :=
  if outputQuality = "high" then highQualityClause else standardQualityClause

/-- Fixed face-preservation instruction (source line 49). -/
def facePreservationInstruction : String :=
  " It is absolutely critical to preserve the person\x27s face from the original image perfectly. Do not alter the facial features, structure, or identity in any way."

/-- The prompt built by `generateImageFromImage` (source lines 20-51):
base prompt, optional quoted character clause, optional quoted scene
clause, influence clause, face-preservation instruction, quality clause,
concatenated in that order.  A clause guard `characterDescription.trim()`
is JavaScript truthiness on a string: non-empty after trimming. -/
def generateImageFromImage_prompt (basePrompt : String) (influence : Int)
    (characterDescription sceneDescription outputQuality : String) : String :=
  let fullPrompt := basePrompt
  let fullPrompt :=
    if jsTrim characterDescription ≠ "" then
      fullPrompt ++ characterClause characterDescription
    else fullPrompt
  let fullPrompt :=
    if jsTrim sceneDescription ≠ "" then
      fullPrompt ++ sceneClause sceneDescription
    else fullPrompt
  let influencePrompt := influencePromptOf influence
  let qualityPrompt := qualityPromptOf outputQuality
  fullPrompt ++ influencePrompt ++ facePreservationInstruction ++ qualityPrompt

/-- The character-clause component of the composed prompt: empty when the
description is blank, the quoted clause otherwise. -/
def charPart (characterDescription : String) : String :=
  if jsTrim characterDescription ≠ "" then characterClause characterDescription else ""

/-- The scene-clause component of the composed prompt: empty when the
description is blank, the quoted clause otherwise. -/
def scenePart (sceneDescription : String) : String :=
  if jsTrim sceneDescription ≠ "" then sceneClause sceneDescription else ""

/-! ### Response scanning and error wrapping (geminiService lines 54-121) -/

/-- Inline binary payload of a response part: base64 data plus MIME type. -/
structure InlineData where
  data : String
  mimeType : String
  deriving DecidableEq, Repr

/-- One content part of a model response: optional inline bytes, optional
text. -/
structure ResponsePart where
  inlineData : Option InlineData
  text : Option String
  deriving DecidableEq, Repr

/-- The scanning loop (source lines 74-78 and 110-114): return the data of
the first part whose `inlineData` is present. -/
def findInlineData : List ResponsePart → Option String
  | [] => none
  | p :: ps =>
    match p.inlineData with
    | some d => some d.data
    | none => findInlineData ps

/-- Message thrown inside the try block of `generateImageFromImage` when no
part carries inline data (source line 80). -/
def noImageMsgGenerate : String :=
  "No image data found in the Gemini API response."

/-- Message thrown by the catch block of `generateImageFromImage`
(source line 84). -/
def generationFailedMsg : String :=
  "Failed to generate image. Please check the console for more details."

/-- Message thrown inside the try block of `removeImageBackground` when no
part carries inline data (source line 116). -/
def noImageMsgRemove : String :=
  "No image data found in the Gemini API response for background removal."

/-- Message thrown by the catch block of `removeImageBackground`
(source line 120). -/
def removalFailedMsg : String :=
  "Failed to remove background. Please check the console for more details."

/-- The try block of `generateImageFromImage` (source lines 54-80), given
the outcome of the remote call: a transport error propagates, otherwise the
parts are scanned and a missing image throws `noImageMsgGenerate`. -/
def generateImageFromImage_tryBody (call : Except String (List ResponsePart)) :
    Except String String :=
  match call with
  | Except.error e => Except.error e
  | Except.ok parts =>
    match findInlineData parts with
    | some d => Except.ok d
    | none => Except.error noImageMsgGenerate

/-- `generateImageFromImage` (source lines 19-85): the catch block replaces
any error raised in the try block, including the no-image throw, with the
generic `generationFailedMsg`. -/
def generateImageFromImage_run (call : Except String (List ResponsePart)) :
    Except String String :=
  match generateImageFromImage_tryBody call with
  | Except.ok d => Except.ok d
  | Except.error _ => Except.error generationFailedMsg

/-- The try block of `removeImageBackground` (source lines 89-116). -/
def removeImageBackground_tryBody (call : Except String (List ResponsePart)) :
    Except String String :=
  match call with
  | Except.error e => Except.error e
  | Except.ok parts =>
    match findInlineData parts with
    | some d => Except.ok d
    | none => Except.error noImageMsgRemove

/-- `removeImageBackground` (source lines 88-122): the catch block replaces
any error raised in the try block with the generic `removalFailedMsg`. -/
def removeImageBackground_run (call : Except String (List ResponsePart)) :
    Except String String :=
  match removeImageBackground_tryBody call with
  | Except.ok d => Except.ok d
  | Except.error _ => Except.error removalFailedMsg

/-! ### App state and handlers (App component) -/

/-- An uploaded image file: name, MIME type, and its base64 payload.
`fileToBase64` (source lines 8-21) extracts the payload; for the embedding
the payload is carried in the file record. -/
structure ImageFile where
  name : String
  mime : String
  data : String
  deriving DecidableEq, Repr

/-- `base64ToFile` (source lines 23-27): wraps base64 data as a PNG file
with the given filename. -/
def base64ToFile (base64 : String) (filename : String) : ImageFile :=
  { name := filename, mime := "image/png", data := base64 }

/-- A static style catalog entry (`StyleOption` from constants):
`{id, name, prompt}`. -/
structure StyleOption where
  id : String
  name : String
  prompt : String
  deriving DecidableEq, Repr

/-- The React state of the App component (source lines 31-40). -/
structure AppState where
  uploadedImage : Option ImageFile
  generatedImage : Option String
  isLoading : Bool
  isRemovingBackground : Bool
  error : Option String
  selectedStyle : String
  referenceInfluence : Int
  characterDescription : String
  sceneDescription : String
  outputQuality : String
  deriving DecidableEq, Repr

/-- The initial App state (source lines 31-40). -/
def initialAppState : AppState :=
  { uploadedImage := none, generatedImage := none, isLoading := false,
    isRemovingBackground := false, error := none, selectedStyle := "",
    referenceInfluence := 75, characterDescription := "",
    sceneDescription := "", outputQuality := "standard" }

/-- `handleImageUpload` (source lines 43-47): store the new file, clear the
generated image and the error. -/
def handleImageUpload (s : AppState) (file : ImageFile) : AppState :=
  { s with uploadedImage := some file, generatedImage := none, error := none }

/-- Error message set when remove-background is clicked with no image
(source line 51). -/
def noUploadMsg : String := "Please upload an image first."

/-- `handleRemoveBackgroundClick` (source lines 49-72), given the outcome
of the `removeImageBackground` call as an explicit `Except`: on success the
processed data becomes the new uploaded image; any failure is caught, the
error message stored, and the uploaded image left as it was.  The
`finally` block clears `isRemovingBackground` on every path through the
try. -/
def handleRemoveBackgroundClick (s : AppState)
    (remote : Except String String) : AppState :=
  match s.uploadedImage with
  | none => { s with error := some noUploadMsg }
  | some img =>
    let s1 := { s with isRemovingBackground := true, error := none }
    match remote with
    | Except.ok processedData =>
      let newImageFile := base64ToFile processedData ("bg_removed_" ++ img.name)
      { s1 with uploadedImage := some newImageFile, isRemovingBackground := false }
    | Except.error msg =>
      { s1 with error := some msg, isRemovingBackground := false }

/-- Error message set when generation is clicked with no image or no style
(source line 76). -/
def missingInputMsg : String := "Please upload an image and select a style."

/-- Error message thrown when the selected style id is not in the catalog
(source line 90). -/
def invalidStyleMsg : String := "Invalid style selected."

/-- `handleGenerateClick` (source lines 74-101), given the style catalog
and the outcome of the `generateImageFromImage` call.  The returned `Bool`
records whether the remote call was made.  The guard
`!uploadedImage || !selectedStyle` is JavaScript truthiness: no file, or
empty style id.  Inside the try, an unknown style id throws before the
remote call; the catch stores the error message, and `finally` clears
`isLoading`. -/
def handleGenerateClick (s : AppState) (styleOptions : List StyleOption)
    (remote : Except String String) : AppState × Bool :=
  if s.uploadedImage = none ∨ s.selectedStyle = "" then
    ({ s with error := some missingInputMsg }, false)
  else
    let s1 := { s with isLoading := true, error := none, generatedImage := none }
    match styleOptions.find? (fun opt => opt.id = s.selectedStyle) with
    | none => ({ s1 with error := some invalidStyleMsg, isLoading := false }, false)
    | some _style =>
      match remote with
      | Except.ok generatedData =>
        ({ s1 with generatedImage := some ("data:image/png;base64," ++ generatedData),
                   isLoading := false }, true)
      | Except.error msg =>
        ({ s1 with error := some msg, isLoading := false }, true)

/-- A response whose single part carries text and no inline data: used to
exercise the zero-image-part behavior. -/
def textOnlyParts : List ResponsePart :=
  [{ inlineData := none, text := some "hello" }]

/-- A sample uploaded file. -/
def sampleFile : ImageFile :=
  { name := "photo.png", mime := "image/png", data := "origdata" }

/-- A state with an uploaded file. -/
def sampleState : AppState :=
  { initialAppState with uploadedImage := some sampleFile }

/-! ### Helper lemmas -/

theorem prompt_decomp (basePrompt : String) (influence : Int)
    (characterDescription sceneDescription outputQuality : String) :
    generateImageFromImage_prompt basePrompt influence characterDescription
        sceneDescription outputQuality =
      basePrompt ++ charPart characterDescription ++ scenePart sceneDescription ++
        influencePromptOf influence ++ facePreservationInstruction ++
        qualityPromptOf outputQuality := by
  unfold generateImageFromImage_prompt charPart scenePart
  by_cases hc : jsTrim characterDescription = "" <;>
    by_cases hs : jsTrim sceneDescription = "" <;>
      simp [hc, hs, String.append_empty, String.append_assoc]

theorem characterClause_eq (c : String) :
    characterClause c =
      " The character should also be described as: " ++ ("\"" ++ c ++ "\"") ++ "." := by
  have h1 : (" The character should also be described as: \"" : String) =
      " The character should also be described as: " ++ "\"" := by decide
  have h2 : ("\"." : String) = "\"" ++ "." := by decide
  unfold characterClause
  rw [h1, h2]
  simp only [String.append_assoc]

theorem sceneClause_eq (sc : String) :
    sceneClause sc =
      " The scene and action should be: " ++ ("\"" ++ sc ++ "\"") ++ "." := by
  have h1 : (" The scene and action should be: \"" : String) =
      " The scene and action should be: " ++ "\"" := by decide
  have h2 : ("\"." : String) = "\"" ++ "." := by decide
  unfold sceneClause
  rw [h1, h2]
  simp only [String.append_assoc]

theorem findInlineData_eq_none (parts : List ResponsePart)
    (h : ∀ p ∈ parts, p.inlineData = none) : findInlineData parts = none := by
  induction parts with
  | nil => rfl
  | cons q qs ih =>
    have hq : q.inlineData = none := h q (by simp)
    simp only [findInlineData, hq]
    exact ih fun r hr => h r (by simp [hr])

/-! ### Claim theorems -/

/-- C2: for every influence value in [0,100] the composer selects exactly
one of the three influence clauses, with exclusive lower bounds:
`influence > 70` gives the adhere-closely clause, `30 < influence ≤ 70`
the strong-reference clause, `influence ≤ 30` the loose-inspiration
clause; in particular 30 maps to the loose band, 70 to the
strong-reference band, and 71 to the adhere-closely band. -/
theorem influence_band_selection (influence : Int)
    (h0 : 0 ≤ influence) (h100 : influence ≤ 100) :
    (influencePromptOf influence = adhereCloselyClause ↔ 70 < influence) ∧
    (influencePromptOf influence = strongReferenceClause ↔
      30 < influence ∧ influence ≤ 70) ∧
    (influencePromptOf influence = looseInspirationClause ↔ influence ≤ 30) ∧
    influencePromptOf 30 = looseInspirationClause ∧
    influencePromptOf 70 = strongReferenceClause ∧
    influencePromptOf 71 = adhereCloselyClause := by
  have d1 : adhereCloselyClause ≠ strongReferenceClause := by decide
  have d2 : adhereCloselyClause ≠ looseInspirationClause := by decide
  have d3 : strongReferenceClause ≠ looseInspirationClause := by decide
  have d1s := d1.symm
  have d2s := d2.symm
  have d3s := d3.symm
  refine ⟨?_, ?_, ?_, by decide, by decide, by decide⟩ <;>
    · unfold influencePromptOf
      split_ifs with h1 h2 <;>
        simp only [d1, d2, d3, d1s, d2s, d3s, iff_true, iff_false, true_iff,
          false_iff, eq_self_iff_true, not_and, not_lt, not_le, ne_eq,
          not_false_eq_true] <;>
        omega

/-- C2 witness at influence 85, which lies in [0,100] and is above 70. -/
theorem influence_band_selection_witness :
    (0 : Int) ≤ 85 ∧ (85 : Int) ≤ 100 ∧
    influencePromptOf 85 = adhereCloselyClause :=
  ⟨by decide, by decide,
    (influence_band_selection 85 (by decide) (by decide)).1.mpr (by decide)⟩

set_option maxRecDepth 8192 in
/-- C3: the composer concatenates, in fixed order, the base style text,
the optional character clause, the optional scene clause, the influence
clause, the face-preservation clause and the quality clause; on
base "Transform to cyberpunk", influence 85, character "a scarred pilot",
empty scene, quality "high" the output is exactly the base text, the
quoted character clause, the adhere-closely clause, the face-preservation
sentence and the HD/2K-4K quality clause in that order, with no scene
clause. -/
theorem prompt_fixed_order :
    (∀ (basePrompt : String) (influence : Int)
        (characterDescription sceneDescription outputQuality : String),
        generateImageFromImage_prompt basePrompt influence characterDescription
            sceneDescription outputQuality =
          basePrompt ++ charPart characterDescription ++
            scenePart sceneDescription ++ influencePromptOf influence ++
            facePreservationInstruction ++ qualityPromptOf outputQuality) ∧
    generateImageFromImage_prompt "Transform to cyberpunk" 85 "a scarred pilot"
        "" "high" =
      "Transform to cyberpunk" ++ characterClause "a scarred pilot" ++
        adhereCloselyClause ++ facePreservationInstruction ++ highQualityClause :=
  ⟨prompt_decomp, by decide⟩

/-- C4: a blank (whitespace-only) character or scene description produces
no corresponding clause in the composed prompt, and a non-blank one
appears verbatim, wrapped in quotes, in the composed prompt. -/
theorem optional_clause_behavior (basePrompt : String) (influence : Int)
    (characterDescription sceneDescription outputQuality : String) :
    (jsTrim characterDescription = "" →
      generateImageFromImage_prompt basePrompt influence characterDescription
          sceneDescription outputQuality =
        basePrompt ++ scenePart sceneDescription ++ influencePromptOf influence ++
          facePreservationInstruction ++ qualityPromptOf outputQuality) ∧
    (jsTrim characterDescription ≠ "" →
      ∃ p s, generateImageFromImage_prompt basePrompt influence
          characterDescription sceneDescription outputQuality =
        p ++ ("\"" ++ characterDescription ++ "\"") ++ s) ∧
    (jsTrim sceneDescription = "" →
      generateImageFromImage_prompt basePrompt influence characterDescription
          sceneDescription outputQuality =
        basePrompt ++ charPart characterDescription ++ influencePromptOf influence ++
          facePreservationInstruction ++ qualityPromptOf outputQuality) ∧
    (jsTrim sceneDescription ≠ "" →
      ∃ p s, generateImageFromImage_prompt basePrompt influence
          characterDescription sceneDescription outputQuality =
        p ++ ("\"" ++ sceneDescription ++ "\"") ++ s) := by
  refine ⟨?_, ?_, ?_, ?_⟩
  · intro hc
    rw [prompt_decomp]
    simp only [charPart, hc, ne_eq, not_true_eq_false, if_false, ite_false,
      String.append_empty]
  · intro hc
    refine ⟨basePrompt ++ " The character should also be described as: ",
      "." ++ scenePart sceneDescription ++ influencePromptOf influence ++
        facePreservationInstruction ++ qualityPromptOf outputQuality, ?_⟩
    rw [prompt_decomp]
    simp only [charPart, hc, ne_eq, not_false_eq_true, if_true, ite_true,
      characterClause_eq, String.append_assoc]
  · intro hs
    rw [prompt_decomp]
    simp only [scenePart, hs, ne_eq, not_true_eq_false, if_false, ite_false,
      String.append_empty]
  · intro hs
    refine ⟨basePrompt ++ charPart characterDescription ++
        " The scene and action should be: ",
      "." ++ influencePromptOf influence ++ facePreservationInstruction ++
        qualityPromptOf outputQuality, ?_⟩
    rw [prompt_decomp]
    simp only [scenePart, hs, ne_eq, not_false_eq_true, if_true, ite_true,
      sceneClause_eq, String.append_assoc]

/-- C4 witness at base "B", influence 50, character "hero" (non-blank),
scene " " (whitespace-only), quality "std". -/
theorem optional_clause_behavior_witness :
    (∃ p s, generateImageFromImage_prompt "B" 50 "hero" " " "std" =
        p ++ ("\"" ++ "hero" ++ "\"") ++ s) ∧
    generateImageFromImage_prompt "B" 50 "hero" " " "std" =
      "B" ++ charPart "hero" ++ influencePromptOf 50 ++
        facePreservationInstruction ++ qualityPromptOf "std" :=
  ⟨(optional_clause_behavior "B" 50 "hero" " " "std").2.1 (by decide),
   (optional_clause_behavior "B" 50 "hero" " " "std").2.2.1 (by decide)⟩

/-- C5: every composed prompt contains the fixed face-preservation clause,
whatever the base prompt, influence, character text, scene text and
quality selector. -/
theorem face_preservation_always (basePrompt : String) (influence : Int)
    (characterDescription sceneDescription outputQuality : String) :
    ∃ p s, generateImageFromImage_prompt basePrompt influence
        characterDescription sceneDescription outputQuality =
      p ++ facePreservationInstruction ++ s :=
  ⟨basePrompt ++ charPart characterDescription ++ scenePart sceneDescription ++
      influencePromptOf influence, qualityPromptOf outputQuality,
    by rw [prompt_decomp]⟩

/-- C6: for every quality selector other than "high" the composed prompt
ends with the standard-quality (~720p) clause, and for "high" it ends with
the HD/photorealistic 2K-4K clause. -/
theorem quality_clause_selection (basePrompt : String) (influence : Int)
    (characterDescription sceneDescription qualitySelector : String) :
    (qualitySelector ≠ "high" →
      ∃ p, generateImageFromImage_prompt basePrompt influence
          characterDescription sceneDescription qualitySelector =
        p ++ standardQualityClause) ∧
    ∃ p, generateImageFromImage_prompt basePrompt influence
        characterDescription sceneDescription "high" =
      p ++ highQualityClause := by
  constructor
  · intro hq
    refine ⟨basePrompt ++ charPart characterDescription ++
      scenePart sceneDescription ++ influencePromptOf influence ++
      facePreservationInstruction, ?_⟩
    rw [prompt_decomp]
    simp only [qualityPromptOf, hq, if_false, ite_false]
  · refine ⟨basePrompt ++ charPart characterDescription ++
      scenePart sceneDescription ++ influencePromptOf influence ++
      facePreservationInstruction, ?_⟩
    rw [prompt_decomp]
    simp only [qualityPromptOf, if_true, ite_true]

/-- C6 witness at quality "standard", which is not "high". -/
theorem quality_clause_selection_witness :
    ("standard" : String) ≠ "high" ∧
    ∃ p, generateImageFromImage_prompt "B" 50 "" "" "standard" =
      p ++ standardQualityClause :=
  ⟨by decide, (quality_clause_selection "B" 50 "" "" "standard").1 (by decide)⟩

/-- C1 counterexample: on a response whose single part carries only text,
`generateImageFromImage` surfaces the generic failure message - the very
message used for transport errors - and not the distinct no-image message,
because the internal no-image throw is caught by the same catch block; the
result is indistinguishable from a transport failure.  Likewise for
`removeImageBackground`. -/
theorem no_image_error_counterexample :
    generateImageFromImage_run (Except.ok textOnlyParts) =
      Except.error generationFailedMsg ∧
    generateImageFromImage_run (Except.ok textOnlyParts) ≠
      Except.error noImageMsgGenerate ∧
    generateImageFromImage_run (Except.ok textOnlyParts) =
      generateImageFromImage_run (Except.error "network failure") ∧
    removeImageBackground_run (Except.ok textOnlyParts) =
      Except.error removalFailedMsg ∧
    removeImageBackground_run (Except.ok textOnlyParts) ≠
      Except.error noImageMsgRemove ∧
    removeImageBackground_run (Except.ok textOnlyParts) =
      removeImageBackground_run (Except.error "network failure") := by
  refine ⟨rfl, ?_, rfl, rfl, ?_, rfl⟩
  · show Except.error generationFailedMsg ≠ Except.error noImageMsgGenerate
    simp [generationFailedMsg, noImageMsgGenerate]
  · show Except.error removalFailedMsg ≠ Except.error noImageMsgRemove
    simp [removalFailedMsg, noImageMsgRemove]

/-- C1 (amended): on every response whose parts all lack inline image
bytes, both operations fail and never return bytes; the try body raises
the distinct no-image error, but the surrounding catch block replaces it
with the same generic failure message used for transport errors, so the
error surfaced to the caller is the generic one. -/
theorem no_image_never_returns_bytes (parts : List ResponsePart)
    (h : ∀ p ∈ parts, p.inlineData = none) :
    generateImageFromImage_tryBody (Except.ok parts) =
      Except.error noImageMsgGenerate ∧
    removeImageBackground_tryBody (Except.ok parts) =
      Except.error noImageMsgRemove ∧
    generateImageFromImage_run (Except.ok parts) =
      Except.error generationFailedMsg ∧
    removeImageBackground_run (Except.ok parts) =
      Except.error removalFailedMsg := by
  have hfind := findInlineData_eq_none parts h
  simp [generateImageFromImage_run, removeImageBackground_run,
    generateImageFromImage_tryBody, removeImageBackground_tryBody, hfind]

/-- C1 (amended) witness on the concrete text-only response. -/
theorem no_image_never_returns_bytes_witness :
    (∀ p ∈ textOnlyParts, p.inlineData = none) ∧
    generateImageFromImage_run (Except.ok textOnlyParts) =
      Except.error generationFailedMsg ∧
    removeImageBackground_run (Except.ok textOnlyParts) =
      Except.error removalFailedMsg :=
  ⟨by decide,
   (no_image_never_returns_bytes textOnlyParts (by decide)).2.2.1,
   (no_image_never_returns_bytes textOnlyParts (by decide)).2.2.2⟩

/-- C7: on a response whose ordered parts contain at least one part with
inline image bytes, both operations return the bytes of the first such
part: every part before it lacks inline data, and its data is returned. -/
theorem first_inline_part_wins (pre post : List ResponsePart)
    (p : ResponsePart) (idata : InlineData)
    (hpre : ∀ q ∈ pre, q.inlineData = none)
    (hp : p.inlineData = some idata) :
    generateImageFromImage_run (Except.ok (pre ++ p :: post)) =
      Except.ok idata.data ∧
    removeImageBackground_run (Except.ok (pre ++ p :: post)) =
      Except.ok idata.data := by
  have hfind : findInlineData (pre ++ p :: post) = some idata.data := by
    induction pre with
    | nil => simp [findInlineData, hp]
    | cons q qs ih =>
      have hq : q.inlineData = none := hpre q (by simp)
      simp only [List.cons_append, findInlineData, hq]
      exact ih fun r hr => hpre r (by simp [hr])
  simp [generateImageFromImage_run, removeImageBackground_run,
    generateImageFromImage_tryBody, removeImageBackground_tryBody, hfind]

/-- C7 witness: the first part carries no image bytes, the second does;
the second part's bytes are returned. -/
theorem first_inline_part_wins_witness :
    generateImageFromImage_run (Except.ok
        ([{ inlineData := none, text := some "no image here" }] ++
          { inlineData := some { data := "abc123", mimeType := "image/png" },
            text := none } :: [])) =
      Except.ok "abc123" ∧
    removeImageBackground_run (Except.ok
        ([{ inlineData := none, text := some "no image here" }] ++
          { inlineData := some { data := "abc123", mimeType := "image/png" },
            text := none } :: [])) =
      Except.ok "abc123" :=
  first_inline_part_wins [{ inlineData := none, text := some "no image here" }]
    [] { inlineData := some { data := "abc123", mimeType := "image/png" },
         text := none } { data := "abc123", mimeType := "image/png" }
    (by decide) rfl

/-- C8: with an image uploaded, a remove-background call replaces the
current image only on success - the processed data becomes the new current
file - and on any failure of the call the current image is left exactly as
it was. -/
theorem remove_background_atomic (s : AppState) (img : ImageFile)
    (h : s.uploadedImage = some img) :
    (∀ d, (handleRemoveBackgroundClick s (Except.ok d)).uploadedImage =
        some (base64ToFile d ("bg_removed_" ++ img.name))) ∧
    (∀ msg, (handleRemoveBackgroundClick s (Except.error msg)).uploadedImage =
        s.uploadedImage) := by
  constructor <;> intro x <;> simp [handleRemoveBackgroundClick, h]

/-- C8 witness: a failing call on a concrete state leaves the uploaded
image unchanged. -/
theorem remove_background_atomic_witness :
    sampleState.uploadedImage = some sampleFile ∧
    (handleRemoveBackgroundClick sampleState (Except.error "boom")).uploadedImage =
      sampleState.uploadedImage ∧
    (handleRemoveBackgroundClick sampleState (Except.ok "newdata")).uploadedImage =
      some (base64ToFile "newdata" ("bg_removed_" ++ sampleFile.name)) :=
  ⟨rfl, (remove_background_atomic sampleState sampleFile rfl).2 "boom",
    (remove_background_atomic sampleState sampleFile rfl).1 "newdata"⟩

/-- C9: when generation is triggered with no uploaded image or no selected
style, the handler only sets the user-visible error message and returns:
no remote call is made (the returned flag is false) and every other state
field, including the loading flag and the generated image, is untouched. -/
theorem generate_guard_blocks (s : AppState) (styleOptions : List StyleOption)
    (remote : Except String String)
    (h : s.uploadedImage = none ∨ s.selectedStyle = "") :
    handleGenerateClick s styleOptions remote =
      ({ s with error := some missingInputMsg }, false) := by
  simp [handleGenerateClick, h]

/-- C9 witness on the initial state, which has no uploaded image. -/
theorem generate_guard_blocks_witness :
    (initialAppState.uploadedImage = none ∨ initialAppState.selectedStyle = "") ∧
    handleGenerateClick initialAppState [] (Except.ok "x") =
      ({ initialAppState with error := some missingInputMsg }, false) :=
  ⟨Or.inl rfl,
    generate_guard_blocks initialAppState [] (Except.ok "x") (Or.inl rfl)⟩

/-- C10: uploading a new image stores it as the current uploaded image and
clears the generated image and the error, while leaving the loading flags,
the selected style, the influence, the character and scene descriptions
and the quality selector unchanged. -/
theorem upload_replaces_and_clears (s : AppState) (file : ImageFile) :
    (handleImageUpload s file).uploadedImage = some file ∧
    (handleImageUpload s file).generatedImage = none ∧
    (handleImageUpload s file).error = none ∧
    (handleImageUpload s file).isLoading = s.isLoading ∧
    (handleImageUpload s file).isRemovingBackground = s.isRemovingBackground ∧
    (handleImageUpload s file).selectedStyle = s.selectedStyle ∧
    (handleImageUpload s file).referenceInfluence = s.referenceInfluence ∧
    (handleImageUpload s file).characterDescription = s.characterDescription ∧
    (handleImageUpload s file).sceneDescription = s.sceneDescription ∧
    (handleImageUpload s file).outputQuality = s.outputQuality := by
  simp [handleImageUpload]

end StyleTransformer
